import Mathlib

/-!
Verification of the UWS-tools resource-gated storage gateway.

Shallow embedding of the Python sources:
  src/DB/dbEndPoint.py        admission control and the gated DB-service upload
  src/Buckets/buckets.py      blob store (upload, download, delete)
  src/Queue/Queue.py          in-memory FIFO queue
  src/DB/db.py                relational entity store (dynamic table lookup)
  src/DB_NoSQL/db_noSQL.py    document entity store (pymongo collections)

Python floats (psutil and shutil samples) are modelled as rationals, byte
payloads as lists of naturals, and the dictionaries/filesystem as
association lists.  Fallible handlers return an Except value; a raised
HTTPException is the httpExc constructor and any other uncaught Python
exception is the runtimeError constructor (which FastAPI surfaces as a
500 response).
-/

set_option autoImplicit false

namespace UWS

/-- Byte payload of an uploaded file (each entry one byte). -/
abbrev Bytes := List Nat

/-- Key/value record: a Python dict with string keys and (stringified) values. -/
abbrev Fields := List (String × String)

/-! ### Association lists: python dicts, SQL table maps, mongo collections,
and the filesystem (path to byte content) are all modelled as assoc lists
with first-match lookup, in-place overwrite, and erase-all-matches. -/

/-- First-match lookup in an association list. -/
def alFind {A : Type} : List (String × A) → String → Option A
  | [], _ => none
  | (k, v) :: rest, key => if k = key then some v else alFind rest key

/-- Overwrite the first entry with the given key in place; append when absent. -/
def alWrite {A : Type} : List (String × A) → String → A → List (String × A)
  | [], key, v => [(key, v)]
  | (k, w) :: rest, key, v =>
      if k = key then (key, v) :: rest else (k, w) :: alWrite rest key v

/-- Remove every entry with the given key (os.remove on a path). -/
def alErase {A : Type} (l : List (String × A)) (key : String) : List (String × A) :=
  l.filter (fun e => decide (e.1 ≠ key))

theorem alFind_write_self {A : Type} (l : List (String × A)) (key : String) (v : A) :
    alFind (alWrite l key v) key = some v := by
  induction l with
  | nil => simp [alWrite, alFind]
  | cons e rest ih =>
      obtain ⟨k, w⟩ := e
      by_cases h : k = key
      · simp [alWrite, alFind, h]
      · simp [alWrite, alFind, h, ih]

theorem alFind_write_other {A : Type} (l : List (String × A)) (key key2 : String) (v : A)
    (h : key2 ≠ key) : alFind (alWrite l key v) key2 = alFind l key2 := by
  have h2 : key ≠ key2 := Ne.symm h
  induction l with
  | nil => simp [alWrite, alFind, h2]
  | cons e rest ih =>
      obtain ⟨k, w⟩ := e
      by_cases hk : k = key
      · subst hk
        simp [alWrite, alFind, h2]
      · simp [alWrite, alFind, hk, ih]

theorem alFind_erase_self {A : Type} (l : List (String × A)) (key : String) :
    alFind (alErase l key) key = none := by
  induction l with
  | nil => simp [alErase, alFind]
  | cons e rest ih =>
      obtain ⟨k, w⟩ := e
      by_cases h : k = key
      · simpa [alErase, alFind, h] using ih
      · simpa [alErase, alFind, h] using ih

/-! ### AdmissionController (src/DB/dbEndPoint.py, check_resource_limits) -/

/-- The three sampled resource dimensions. -/
inductive Dimension where
  | cpu
  | ram
  | disk
deriving DecidableEq, Repr

/-- A rejection raised by the admission gate: the HTTP status of the raised
HTTPException and the dimension named in its detail text. -/
structure Rejection where
  status : Nat
  dimension : Dimension
deriving DecidableEq, Repr

/-- One synthetic sample of resource pressure: psutil.cpu_percent, the process
resident memory in MB, and shutil.disk_usage free space in GB.  The Python
values are floats; they are modelled as rationals. -/
structure Pressure where
  cpuPercent : ℚ
  usedRamMb : ℚ
  freeDiskGb : ℚ
deriving DecidableEq, Repr

/-- Configured limits (DEFAULT_RESOURCE_LIMITS, integers from the environment). -/
structure ResourceLimits where
  max_cpu_percent : ℤ
  max_ram_mb : ℤ
  max_disk_gb : ℤ
deriving DecidableEq, Repr

/-- The default limits from dbEndPoint.py: MAX_CPU_PERCENT 90, MAX_RAM_MB 2048,
MAX_DISK_GB 10. -/
def DEFAULT_RESOURCE_LIMITS : ResourceLimits := ⟨90, 2048, 10⟩

/-- check_resource_limits of src/DB/dbEndPoint.py: compare CPU, then RAM, then
free disk against the limits; raise (return) on the first violation.  CPU and
RAM raise HTTPException 503, low free disk raises HTTPException 507. -/
def check_resource_limits (limits : ResourceLimits) (p : Pressure) : Option Rejection :=
  if p.cpuPercent > (limits.max_cpu_percent : ℚ) then
    some ⟨503, Dimension.cpu⟩
  else if p.usedRamMb > (limits.max_ram_mb : ℚ) then
    some ⟨503, Dimension.ram⟩
  else if p.freeDiskGb < (limits.max_disk_gb : ℚ) then
    some ⟨507, Dimension.disk⟩
  else
    none

/-- Detail text of the raised HTTPException (the Python f-string also
interpolates the measured value and the limit; only the fixed part is kept). -/
def rejectionDetail : Dimension → String
  | Dimension.cpu => "Server overloaded: CPU usage exceeds limit"
  | Dimension.ram => "Server overloaded: App RAM usage exceeds limit"
  | Dimension.disk => "Insufficient disk space"

/-- C2: the admission check runs CPU, then RAM, then disk, and rejects with the
first violated dimension, ignoring the later dimensions: a CPU violation
reports CPU whatever RAM and disk hold, and with CPU within its limit a RAM
violation reports RAM whatever disk holds. -/
theorem admission_fixed_order (limits : ResourceLimits) (p : Pressure) :
    (p.cpuPercent > (limits.max_cpu_percent : ℚ) →
      check_resource_limits limits p = some ⟨503, Dimension.cpu⟩) ∧
    (¬ p.cpuPercent > (limits.max_cpu_percent : ℚ) →
      p.usedRamMb > (limits.max_ram_mb : ℚ) →
      check_resource_limits limits p = some ⟨503, Dimension.ram⟩) ∧
    (¬ p.cpuPercent > (limits.max_cpu_percent : ℚ) →
      ¬ p.usedRamMb > (limits.max_ram_mb : ℚ) →
      p.freeDiskGb < (limits.max_disk_gb : ℚ) →
      check_resource_limits limits p = some ⟨507, Dimension.disk⟩) := by
  refine ⟨?_, ?_, ?_⟩ <;> intros <;> simp [check_resource_limits, *]

/-- Witness for admission_fixed_order: with every dimension over its limit the
gate reports CPU, and with CPU fine but RAM and disk both violated it reports
RAM. -/
theorem admission_fixed_order_witness :
    check_resource_limits DEFAULT_RESOURCE_LIMITS ⟨95, 4096, 1⟩
        = some ⟨503, Dimension.cpu⟩ ∧
    check_resource_limits DEFAULT_RESOURCE_LIMITS ⟨50, 4096, 1⟩
        = some ⟨503, Dimension.ram⟩ :=
  ⟨(admission_fixed_order DEFAULT_RESOURCE_LIMITS ⟨95, 4096, 1⟩).1
      (by norm_num [DEFAULT_RESOURCE_LIMITS]),
   (admission_fixed_order DEFAULT_RESOURCE_LIMITS ⟨50, 4096, 1⟩).2.1
      (by norm_num [DEFAULT_RESOURCE_LIMITS]) (by norm_num [DEFAULT_RESOURCE_LIMITS])⟩

/-- C3: every rejection the admission gate produces carries status 503 exactly
when its dimension is CPU or RAM (transient overload, retryable) and status
507 exactly when its dimension is disk (insufficient capacity); the two kinds
are never conflated. -/
theorem admission_status_partition (limits : ResourceLimits) (p : Pressure)
    (r : Rejection) (h : check_resource_limits limits p = some r) :
    ((r.dimension = Dimension.cpu ∨ r.dimension = Dimension.ram) ↔ r.status = 503) ∧
    (r.dimension = Dimension.disk ↔ r.status = 507) := by
  unfold check_resource_limits at h
  split_ifs at h <;> simp_all <;> subst h <;> simp

/-- Witness for admission_status_partition at a CPU-overload sample. -/
theorem admission_status_partition_witness :
    ((Dimension.cpu = Dimension.cpu ∨ Dimension.cpu = Dimension.ram) ↔ 503 = 503) ∧
    (Dimension.cpu = Dimension.disk ↔ 503 = 507) :=
  admission_status_partition DEFAULT_RESOURCE_LIMITS ⟨95, 4096, 1⟩
    ⟨503, Dimension.cpu⟩ (by norm_num [check_resource_limits, DEFAULT_RESOURCE_LIMITS])

/-! ### Errors, events and the shared secret -/

/-- Failure of a handler: a raised HTTPException (status, detail) or any other
uncaught Python exception (RuntimeError and the like). -/
inductive HandlerError where
  | httpExc : Nat → String → HandlerError
  | runtimeError : String → HandlerError
deriving DecidableEq, Repr

/-- HTTP status a FastAPI app answers with for the error: an HTTPException
carries its own status; every other uncaught exception is surfaced as a 500
Internal Server Error by the framework. -/
def HandlerError.status : HandlerError → Nat
  | HandlerError.httpExc s _ => s
  | HandlerError.runtimeError _ => 500

/-- Observable steps of a handler, in program order: the signature check, the
admission (resource) check, writing file bytes to a path, inserting a
metadata/entity row, appending to the queue. -/
inductive Event where
  | authCheck
  | admissionCheck
  | fileWrite (path : String) (content : Bytes)
  | rowInsert
  | queueAppend
deriving DecidableEq, Repr

/-- The shared secret every mutating endpoint compares X-Signature against. -/
def VALID_SIGNATURE : String := "mysecretkey123"

/-! ### BlobStore (src/Buckets/buckets.py) -/

/-- One row of the files table (src/Buckets DB model: id, path, filename,
bucket, user_id). -/
structure FileRow where
  id : Nat
  path : String
  filename : String
  bucket : String
  user_id : String
deriving DecidableEq, Repr

/-- The filesystem: a map from path to byte content. -/
abbrev Fs := List (String × Bytes)

/-- State of the blob service: the autoincrement counter of the files table,
its rows, and the filesystem. -/
structure BlobState where
  nextId : Nat
  rows : List FileRow
  fs : Fs
deriving DecidableEq, Repr

/-- os.path.join("uploads", filename): the flat uploads directory; an absolute
filename (leading slash) discards the directory component, as os.path.join
does on POSIX. -/
def uploadPath (filename : String) : String :=
  if filename.data.head? = some (Char.ofNat 47) then filename
  else "uploads/" ++ filename

/-- The parts of the upload response the later claims consume: db_id and path
(the Python handler also echoes filename, user_id, bucket and a detail text). -/
structure UploadResult where
  db_id : Nat
  path : String
deriving DecidableEq, Repr

/-- Outcome of the blob-service upload handler: its event trace, its response
or error, and the state it leaves behind. -/
structure BlobUploadOut where
  trace : List Event
  result : Except HandlerError UploadResult
  state : BlobState
deriving Repr

/-- upload_file of src/Buckets/buckets.py: check the signature, write the
bytes to uploads/filename, then insert a fresh metadata row.  There is no
resource/admission check in this handler. -/
def buckets_upload_file (user_id bucket filename : String) (content : Bytes)
    (x_signature : String) (s : BlobState) : BlobUploadOut :=
  if x_signature = VALID_SIGNATURE then
    let loc := uploadPath filename
    let row : FileRow := ⟨s.nextId, loc, filename, bucket, user_id⟩
    { trace := [Event.authCheck, Event.fileWrite loc content, Event.rowInsert]
      result := Except.ok ⟨s.nextId, loc⟩
      state := ⟨s.nextId + 1, s.rows ++ [row], alWrite s.fs loc content⟩ }
  else
    { trace := [Event.authCheck]
      result := Except.error (HandlerError.httpExc 401 "Invalid signature key")
      state := s }

/-- download_file of src/Buckets/buckets.py: look the row up by id; 404 when
the row is absent or its recorded path does not exist on disk; otherwise
serve the bytes at the recorded path. -/
def download_file (file_id : Nat) (s : BlobState) : Except HandlerError Bytes :=
  match s.rows.find? (fun r => r.id == file_id) with
  | none => Except.error (HandlerError.httpExc 404 "File not found")
  | some r =>
    match alFind s.fs r.path with
    | none => Except.error (HandlerError.httpExc 404 "File not found")
    | some b => Except.ok b

/-- delete_file of src/Buckets/buckets.py: look the row up by id; 404 and no
change when absent; otherwise remove the file from disk when it exists, then
delete the row. -/
def delete_file (file_id : Nat) (s : BlobState) :
    Except HandlerError String × BlobState :=
  match s.rows.find? (fun r => r.id == file_id) with
  | none => (Except.error (HandlerError.httpExc 404 "File not found"), s)
  | some r =>
    let fs1 := if (alFind s.fs r.path).isSome then alErase s.fs r.path else s.fs
    (Except.ok "File deleted successfully.",
      ⟨s.nextId, s.rows.eraseP (fun r2 => r2.id == file_id), fs1⟩)

/-- Well-formed blob state: every stored row id is below the autoincrement
counter (what a SQL autoincrement primary key guarantees). -/
def BlobState.freshIds (s : BlobState) : Prop :=
  ∀ r ∈ s.rows, r.id < s.nextId

theorem find?_append_of_none {A : Type} (l1 l2 : List A) (p : A → Bool)
    (h : l1.find? p = none) : (l1 ++ l2).find? p = l2.find? p := by
  simp [List.find?_append, h]

theorem find?_rows_fresh (rows : List FileRow) (n m : Nat)
    (h : ∀ r ∈ rows, r.id < n) (hm : n ≤ m) :
    rows.find? (fun r => r.id == m) = none := by
  rw [List.find?_eq_none]
  intro r hr
  simp only [beq_iff_eq]
  exact Nat.ne_of_lt (Nat.lt_of_lt_of_le (h r hr) hm)

/-- C4: blob round trip — for every byte payload and every (owner, bucket,
filename) triple, uploading and then downloading by the returned id yields
exactly the uploaded bytes. -/
theorem blob_round_trip (s : BlobState) (hfresh : s.freshIds)
    (user_id bucket filename : String) (content : Bytes) :
    ∃ res : UploadResult,
      (buckets_upload_file user_id bucket filename content VALID_SIGNATURE s).result
        = Except.ok res ∧
      download_file res.db_id
          (buckets_upload_file user_id bucket filename content VALID_SIGNATURE s).state
        = Except.ok content := by
  refine ⟨⟨s.nextId, uploadPath filename⟩, ?_, ?_⟩ <;>
    simp [buckets_upload_file, download_file, List.find?_append,
      find?_rows_fresh s.rows s.nextId s.nextId hfresh le_rfl, alFind_write_self,
      List.find?]

/-- Witness for blob_round_trip: uploading the payload [104, 105] to an empty
store and downloading id 0 returns [104, 105]. -/
theorem blob_round_trip_witness :
    ∃ res : UploadResult,
      (buckets_upload_file "alice" "reports" "a.txt" [104, 105] VALID_SIGNATURE
          ⟨0, [], []⟩).result = Except.ok res ∧
      download_file res.db_id
          (buckets_upload_file "alice" "reports" "a.txt" [104, 105] VALID_SIGNATURE
            ⟨0, [], []⟩).state = Except.ok [104, 105] :=
  blob_round_trip ⟨0, [], []⟩ (by intro r hr; simp at hr) "alice" "reports" "a.txt" [104, 105]

theorem find?_eraseP_of_nodup (rows : List FileRow) (fid : Nat)
    (hnd : (rows.map FileRow.id).Nodup) :
    (rows.eraseP (fun r => r.id == fid)).find? (fun r => r.id == fid) = none := by
  induction rows with
  | nil => simp
  | cons r rest ih =>
      simp only [List.map_cons, List.nodup_cons] at hnd
      cases hp : (r.id == fid) with
      | true =>
          have hr : r.id = fid := by simpa using hp
          rw [List.eraseP_cons_of_pos (by simpa using hp), List.find?_eq_none]
          intro x hx
          simp only [beq_iff_eq]
          intro hxid
          exact hnd.1 (by
            rw [hr, ← hxid]
            exact List.mem_map_of_mem FileRow.id hx)
      | false =>
          rw [List.eraseP_cons_of_neg (by simp [hp])]
          rw [List.find?_cons_of_neg _ (by simp [hp])]
          exact ih hnd.2

/-- C5: after delete(id) succeeds, a subsequent download of id yields 404
NotFound; and when no metadata row exists for id, delete(id) yields 404
NotFound and leaves the blob store (rows and files) unchanged. -/
theorem blob_delete_semantics (s : BlobState)
    (hnd : (s.rows.map FileRow.id).Nodup) (file_id : Nat) :
    (s.rows.find? (fun r => r.id == file_id) = none →
      delete_file file_id s
        = (Except.error (HandlerError.httpExc 404 "File not found"), s)) ∧
    (∀ r, s.rows.find? (fun r2 => r2.id == file_id) = some r →
      (delete_file file_id s).1 = Except.ok "File deleted successfully." ∧
      download_file file_id (delete_file file_id s).2
        = Except.error (HandlerError.httpExc 404 "File not found")) := by
  constructor
  · intro h
    simp [delete_file, h]
  · intro r h
    refine ⟨by simp [delete_file, h], ?_⟩
    simp [delete_file, h, download_file, find?_eraseP_of_nodup s.rows file_id hnd]

/-- Witness for blob_delete_semantics: in a store holding one row with id 0,
deleting id 0 succeeds and the subsequent download yields 404; in the empty
store, deleting id 3 yields 404 and changes nothing. -/
theorem blob_delete_semantics_witness :
    ((delete_file 0 ⟨1, [⟨0, "uploads/a.txt", "a.txt", "b", "u"⟩],
        [("uploads/a.txt", [104])]⟩).1 = Except.ok "File deleted successfully." ∧
      download_file 0 (delete_file 0 ⟨1, [⟨0, "uploads/a.txt", "a.txt", "b", "u"⟩],
        [("uploads/a.txt", [104])]⟩).2
        = Except.error (HandlerError.httpExc 404 "File not found")) ∧
    delete_file 3 ⟨0, [], []⟩
      = (Except.error (HandlerError.httpExc 404 "File not found"), ⟨0, [], []⟩) :=
  ⟨(blob_delete_semantics ⟨1, [⟨0, "uploads/a.txt", "a.txt", "b", "u"⟩],
        [("uploads/a.txt", [104])]⟩ (by simp) 0).2
      ⟨0, "uploads/a.txt", "a.txt", "b", "u"⟩ (by simp [List.find?]),
   (blob_delete_semantics ⟨0, [], []⟩ (by simp) 3).1 (by simp [List.find?])⟩

/-- C10: the storage path of an upload is derived from the filename alone
under the one flat uploads directory, ignoring owner and bucket: two uploads
of the same filename (any owners, any buckets) share one path, the second
overwrites the bytes of the first, each upload still inserts a distinct
metadata row, and the earlier row now serves the overwriting content. -/
theorem blob_flat_path_overwrite (s : BlobState) (hfresh : s.freshIds)
    (u1 k1 u2 k2 fn : String) (b1 b2 : Bytes) :
    ∃ r1 r2 : UploadResult,
      (buckets_upload_file u1 k1 fn b1 VALID_SIGNATURE s).result = Except.ok r1 ∧
      (buckets_upload_file u2 k2 fn b2 VALID_SIGNATURE
          (buckets_upload_file u1 k1 fn b1 VALID_SIGNATURE s).state).result
        = Except.ok r2 ∧
      r1.path = r2.path ∧
      r1.db_id ≠ r2.db_id ∧
      download_file r1.db_id
          (buckets_upload_file u2 k2 fn b2 VALID_SIGNATURE
            (buckets_upload_file u1 k1 fn b1 VALID_SIGNATURE s).state).state
        = Except.ok b2 ∧
      download_file r2.db_id
          (buckets_upload_file u2 k2 fn b2 VALID_SIGNATURE
            (buckets_upload_file u1 k1 fn b1 VALID_SIGNATURE s).state).state
        = Except.ok b2 := by
  refine ⟨⟨s.nextId, uploadPath fn⟩, ⟨s.nextId + 1, uploadPath fn⟩,
    ?_, ?_, rfl, by simp, ?_, ?_⟩
  · simp [buckets_upload_file]
  · simp [buckets_upload_file]
  · simp [buckets_upload_file, download_file, List.find?_append,
      find?_rows_fresh s.rows s.nextId s.nextId hfresh le_rfl, List.find?,
      alFind_write_self]
  · simp [buckets_upload_file, download_file, List.find?_append,
      find?_rows_fresh s.rows s.nextId (s.nextId + 1) hfresh (Nat.le_succ _),
      List.find?, alFind_write_self,
      (by simp : (s.nextId == s.nextId + 1) = false)]

/-- Witness for blob_flat_path_overwrite: two uploads of f.txt by different
owners into different buckets, starting from the empty store. -/
theorem blob_flat_path_overwrite_witness :
    ∃ r1 r2 : UploadResult,
      (buckets_upload_file "alice" "docs" "f.txt" [1] VALID_SIGNATURE
          ⟨0, [], []⟩).result = Except.ok r1 ∧
      (buckets_upload_file "bob" "media" "f.txt" [2] VALID_SIGNATURE
          (buckets_upload_file "alice" "docs" "f.txt" [1] VALID_SIGNATURE
            ⟨0, [], []⟩).state).result = Except.ok r2 ∧
      r1.path = r2.path ∧
      r1.db_id ≠ r2.db_id ∧
      download_file r1.db_id
          (buckets_upload_file "bob" "media" "f.txt" [2] VALID_SIGNATURE
            (buckets_upload_file "alice" "docs" "f.txt" [1] VALID_SIGNATURE
              ⟨0, [], []⟩).state).state = Except.ok [2] ∧
      download_file r2.db_id
          (buckets_upload_file "bob" "media" "f.txt" [2] VALID_SIGNATURE
            (buckets_upload_file "alice" "docs" "f.txt" [1] VALID_SIGNATURE
              ⟨0, [], []⟩).state).state = Except.ok [2] :=
  blob_flat_path_overwrite ⟨0, [], []⟩ (by intro r hr; simp at hr)
    "alice" "docs" "bob" "media" "f.txt" [1] [2]

/-! ### MessageQueue (src/Queue/Queue.py) -/

/-- A queue message: uuid4 id (modelled as a fresh counter value, unique by
construction) and the message text. -/
structure Msg where
  id : Nat
  message : String
deriving DecidableEq, Repr

/-- State of the in-memory queue: the next fresh id and the deque contents in
enqueue order. -/
structure QState where
  nextId : Nat
  msgs : List Msg
deriving DecidableEq, Repr

/-- The initial empty queue. -/
def qInit : QState := ⟨0, []⟩

/-- add_message of src/Queue/Queue.py: build the message with a fresh id,
append it at the tail, and return it. -/
def add_message (message_text : String) (q : QState) : Msg × QState :=
  let m : Msg := ⟨q.nextId, message_text⟩
  (m, ⟨q.nextId + 1, q.msgs ++ [m]⟩)

/-- read_messages of src/Queue/Queue.py: the first limit messages as a fresh
list; the queue itself is not touched (the unchanged state is returned to make
that explicit). -/
def read_messages (limit : Nat) (q : QState) : List Msg × QState :=
  (q.msgs.take limit, q)

/-- The scan-and-delete loop of delete_message_by_id: find the first message
with the given id; some of the remaining list when found, none otherwise. -/
def deleteScan : List Msg → Nat → Option (List Msg)
  | [], _ => none
  | m :: rest, mid =>
      if m.id = mid then some rest
      else
        match deleteScan rest mid with
        | some rest2 => some (m :: rest2)
        | none => none

/-- delete_message_by_id of src/Queue/Queue.py: delete the first message with
the id; True when something was deleted, False (and no change) otherwise. -/
def delete_message_by_id (message_id : Nat) (q : QState) : Bool × QState :=
  match deleteScan q.msgs message_id with
  | some rest => (true, ⟨q.nextId, rest⟩)
  | none => (false, q)

/-- Run a whole sequence of enqueues, oldest first. -/
def enqueueAll (texts : List String) (q : QState) : QState :=
  texts.foldl (fun s t => (add_message t s).2) q

theorem enqueueAll_messages (texts : List String) (q : QState) :
    (enqueueAll texts q).msgs.map Msg.message = q.msgs.map Msg.message ++ texts := by
  induction texts generalizing q with
  | nil => simp [enqueueAll]
  | cons t ts ih =>
      show (enqueueAll ts (add_message t q).2).msgs.map Msg.message = _
      rw [ih]
      simp [add_message]

/-- C6: queue FIFO with non-destructive peek — after any sequence of enqueues
into the fresh queue, peek(limit) returns the first min(limit, length)
messages in enqueue order, leaves the queue state unchanged, and a repeated
peek with the same limit returns the same sequence. -/
theorem queue_peek_fifo (texts : List String) (limit : Nat) :
    (read_messages limit (enqueueAll texts qInit)).1.map Msg.message
        = texts.take limit ∧
    (read_messages limit (enqueueAll texts qInit)).1.length
        = min limit texts.length ∧
    (read_messages limit (enqueueAll texts qInit)).2 = enqueueAll texts qInit ∧
    read_messages limit (read_messages limit (enqueueAll texts qInit)).2
        = read_messages limit (enqueueAll texts qInit) := by
  have hmap : (enqueueAll texts qInit).msgs.map Msg.message = texts := by
    have h := enqueueAll_messages texts qInit
    simpa [qInit] using h
  refine ⟨?_, ?_, rfl, rfl⟩
  · simp only [read_messages]
    rw [List.map_take, hmap]
  · have hlen : (enqueueAll texts qInit).msgs.length = texts.length := by
      conv_rhs => rw [← hmap]
      rw [List.length_map]
    simp only [read_messages]
    rw [List.length_take, hlen]

/-- C7: remove(id) deletes exactly the first message whose id matches and
reports Removed (True); for an id not present in the queue the call reports
NotFound (False) and leaves the queue contents unchanged. -/
theorem queue_remove_first_match (q : QState) (mid : Nat) :
    (∀ pre m post, q.msgs = pre ++ m :: post → m.id = mid →
      (∀ m2 ∈ pre, m2.id ≠ mid) →
      delete_message_by_id mid q = (true, ⟨q.nextId, pre ++ post⟩)) ∧
    (mid ∉ q.msgs.map Msg.id → delete_message_by_id mid q = (false, q)) := by
  have hscan_found : ∀ (pre post : List Msg) (m : Msg), m.id = mid →
      (∀ m2 ∈ pre, m2.id ≠ mid) →
      deleteScan (pre ++ m :: post) mid = some (pre ++ post) := by
    intro pre
    induction pre with
    | nil =>
        intro post m hm _
        simp [deleteScan, hm]
    | cons a pre ih =>
        intro post m hm hpre
        have ha : a.id ≠ mid := hpre a (by simp)
        have hrec := ih post m hm (fun m2 hm2 => hpre m2 (by simp [hm2]))
        simp only [List.cons_append, deleteScan, if_neg ha]
        simp [List.append_eq, hrec]
  have hscan_none : ∀ l : List Msg, mid ∉ l.map Msg.id → deleteScan l mid = none := by
    intro l
    induction l with
    | nil => intro _; rfl
    | cons a rest ih =>
        intro hnot
        simp only [List.map_cons, List.mem_cons, not_or] at hnot
        have ha : a.id ≠ mid := fun h => hnot.1 h.symm
        simp only [deleteScan, if_neg ha, ih hnot.2]
  constructor
  · intro pre m post hq hm hpre
    simp [delete_message_by_id, hq, hscan_found pre post m hm hpre]
  · intro hnot
    simp [delete_message_by_id, hscan_none q.msgs hnot]

/-- Witness for queue_remove_first_match: removing id 0 from the queue holding
messages a (id 0) and b (id 1) leaves exactly b; removing id 0 from the
remaining queue reports False and changes nothing. -/
theorem queue_remove_first_match_witness :
    delete_message_by_id 0 ⟨2, [⟨0, "a"⟩, ⟨1, "b"⟩]⟩ = (true, ⟨2, [⟨1, "b"⟩]⟩) ∧
    delete_message_by_id 0 ⟨2, [⟨1, "b"⟩]⟩ = (false, ⟨2, [⟨1, "b"⟩]⟩) :=
  ⟨(queue_remove_first_match ⟨2, [⟨0, "a"⟩, ⟨1, "b"⟩]⟩ 0).1 [] ⟨0, "a"⟩ [⟨1, "b"⟩]
      rfl rfl (by intro m2 hm2; simp at hm2),
   (queue_remove_first_match ⟨2, [⟨1, "b"⟩]⟩ 0).2 (by simp)⟩

/-! ### EntityStore, relational backend (src/DB/db.py) -/

/-- A relational table: autoincrement primary-key counter and rows (pk,
fields). -/
structure RelTable where
  nextPk : Nat
  rows : List (Nat × Fields)
deriving DecidableEq, Repr

/-- The relational database: named tables, resolved by name per call. -/
structure RelDB where
  tables : List (String × RelTable)
deriving DecidableEq, Repr

/-- The RuntimeError text of get_table (the Python text quotes the name). -/
def relMissingMsg (name : String) : String :=
  "Table " ++ name ++ " does not exist."

/-- get_table of src/DB/db.py: reflect the schema and fail with a
RuntimeError when the table is absent. -/
def get_table (db : RelDB) (name : String) : Except String RelTable :=
  match alFind db.tables name with
  | none => Except.error (relMissingMsg name)
  | some t => Except.ok t

/-- insert_entity of src/DB/db.py: resolve the table, append the row, return
the generated primary key. -/
def rel_insert_entity (db : RelDB) (name : String) (entity_data : Fields) :
    Except String (Nat × RelDB) :=
  match get_table db name with
  | Except.error msg => Except.error msg
  | Except.ok t =>
      Except.ok (t.nextPk,
        ⟨alWrite db.tables name ⟨t.nextPk + 1, t.rows ++ [(t.nextPk, entity_data)]⟩⟩)

/-- get_entity_by_id of src/DB/db.py: resolve the table, select by primary
key; the row dict or None. -/
def rel_get_entity_by_id (db : RelDB) (name : String) (entity_id : Nat) :
    Except String (Option Fields) :=
  match get_table db name with
  | Except.error msg => Except.error msg
  | Except.ok t =>
      Except.ok ((t.rows.find? (fun r => r.1 == entity_id)).map (fun r => r.2))

/-- list_entities of src/DB/db.py: resolve the table and return every row. -/
def rel_list_entities (db : RelDB) (name : String) :
    Except String (List (Nat × Fields)) :=
  match get_table db name with
  | Except.error msg => Except.error msg
  | Except.ok t => Except.ok t.rows

/-! ### EntityStore, document backend (src/DB_NoSQL/db_noSQL.py) -/

/-- The document database: a global ObjectId counter (pymongo ids are unique
by construction) and named collections of (oid, document) pairs. -/
structure DocDB where
  nextOid : Nat
  collections : List (String × List (Nat × Fields))
deriving DecidableEq, Repr

/-- insert_entity of src/DB_NoSQL/db_noSQL.py: db[collection_name] resolves
the collection, creating it implicitly on the first insert (standard mongo
behaviour); insert_one appends the document and returns its generated id. -/
def nosql_insert_entity (d : DocDB) (collection_name : String)
    (entity_data : Fields) : Nat × DocDB :=
  (d.nextOid, ⟨d.nextOid + 1,
    alWrite d.collections collection_name
      ((alFind d.collections collection_name).getD [] ++ [(d.nextOid, entity_data)])⟩)

/-- get_entity_by_id of src/DB_NoSQL/db_noSQL.py: find_one by _id; None when
the document (or the whole collection) is absent. -/
def nosql_get_entity_by_id (d : DocDB) (collection_name : String) (oid : Nat) :
    Option Fields :=
  (((alFind d.collections collection_name).getD []).find?
      (fun r => r.1 == oid)).map (fun r => r.2)

/-- list_entities of src/DB_NoSQL/db_noSQL.py: every document of the named
collection ([] for an absent collection, as mongo find() yields nothing). -/
def nosql_list_entities (d : DocDB) (collection_name : String) :
    List (Nat × Fields) :=
  (alFind d.collections collection_name).getD []

theorem find?_fresh_keys {A : Type} (rows : List (Nat × A)) (n m : Nat)
    (h : ∀ r ∈ rows, r.1 < n) (hm : n ≤ m) :
    rows.find? (fun r => r.1 == m) = none := by
  rw [List.find?_eq_none]
  intro r hr
  simp only [beq_iff_eq]
  exact Nat.ne_of_lt (Nat.lt_of_lt_of_le (h r hr) hm)

/-- C8 (amended): inserting into a relational backend whose table does not
exist fails with the schema RuntimeError (which the framework surfaces as an
unhandled 500, not a 400); inserting into any document backend succeeds,
auto-creating the collection on first write and storing the document under
the returned id. -/
theorem entity_insert_missing_backend (db : RelDB) (name : String) (e : Fields)
    (h : alFind db.tables name = none)
    (d : DocDB) (dname : String) (de : Fields)
    (hd : ∀ r ∈ (alFind d.collections dname).getD [], r.1 < d.nextOid) :
    rel_insert_entity db name e = Except.error (relMissingMsg name) ∧
    alFind (nosql_insert_entity d dname de).2.collections dname
        = some ((alFind d.collections dname).getD [] ++ [(d.nextOid, de)]) ∧
    nosql_get_entity_by_id (nosql_insert_entity d dname de).2 dname
        (nosql_insert_entity d dname de).1 = some de := by
  refine ⟨by simp [rel_insert_entity, get_table, h], ?_, ?_⟩
  · simp [nosql_insert_entity, alFind_write_self]
  · simp [nosql_get_entity_by_id, nosql_insert_entity, alFind_write_self,
      List.find?_append,
      find?_fresh_keys ((alFind d.collections dname).getD []) d.nextOid d.nextOid hd le_rfl,
      List.find?]

/-- Witness for entity_insert_missing_backend: an empty relational database
rejects an insert into table users with the schema error, and an empty
document database accepts an insert into collection logs, creating it. -/
theorem entity_insert_missing_backend_witness :
    rel_insert_entity ⟨[]⟩ "users" [("a", "1")]
        = Except.error (relMissingMsg "users") ∧
    alFind (nosql_insert_entity ⟨0, []⟩ "logs" [("a", "1")]).2.collections "logs"
        = some ((alFind ([] : List (String × List (Nat × Fields))) "logs").getD []
            ++ [(0, [("a", "1")])]) ∧
    nosql_get_entity_by_id (nosql_insert_entity ⟨0, []⟩ "logs" [("a", "1")]).2 "logs"
        (nosql_insert_entity ⟨0, []⟩ "logs" [("a", "1")]).1 = some [("a", "1")] :=
  entity_insert_missing_backend ⟨[]⟩ "users" [("a", "1")] rfl
    ⟨0, []⟩ "logs" [("a", "1")] (by simp [alFind])

/-- C9: entity isolation across backends — with distinct backend names X and
Y, inserting into X and into Y under the same generated key does not collide
(both entities are retrievable independently at that key), list(X) holds
exactly the old X rows plus the X insert and none of Y, and on the document
side an insert into collection Y leaves list(X) untouched. -/
theorem entity_backend_isolation (db : RelDB) (X Y : String) (tX tY : RelTable)
    (eX eY : Fields) (hXY : X ≠ Y)
    (hX : alFind db.tables X = some tX) (hY : alFind db.tables Y = some tY)
    (hfX : ∀ r ∈ tX.rows, r.1 < tX.nextPk) (hfY : ∀ r ∈ tY.rows, r.1 < tY.nextPk)
    (hk : tY.nextPk = tX.nextPk) :
    ∃ k db1 db2,
      rel_insert_entity db X eX = Except.ok (k, db1) ∧
      rel_insert_entity db1 Y eY = Except.ok (k, db2) ∧
      rel_get_entity_by_id db2 X k = Except.ok (some eX) ∧
      rel_get_entity_by_id db2 Y k = Except.ok (some eY) ∧
      rel_list_entities db2 X = Except.ok (tX.rows ++ [(k, eX)]) ∧
      rel_list_entities db X = Except.ok tX.rows ∧
      (∀ (d : DocDB) (f : Fields),
        nosql_list_entities (nosql_insert_entity d Y f).2 X
          = nosql_list_entities d X) := by
  have hYX : Y ≠ X := Ne.symm hXY
  refine ⟨tX.nextPk,
    ⟨alWrite db.tables X ⟨tX.nextPk + 1, tX.rows ++ [(tX.nextPk, eX)]⟩⟩,
    ⟨alWrite (alWrite db.tables X ⟨tX.nextPk + 1, tX.rows ++ [(tX.nextPk, eX)]⟩) Y
      ⟨tY.nextPk + 1, tY.rows ++ [(tY.nextPk, eY)]⟩⟩,
    ?_, ?_, ?_, ?_, ?_, ?_, ?_⟩
  · simp [rel_insert_entity, get_table, hX]
  · have h1 : alFind (alWrite db.tables X
        ⟨tX.nextPk + 1, tX.rows ++ [(tX.nextPk, eX)]⟩) Y = some tY := by
      rw [alFind_write_other _ _ _ _ hYX, hY]
    simp [rel_insert_entity, get_table, h1, hk]
  · have h2 : alFind (alWrite (alWrite db.tables X
        ⟨tX.nextPk + 1, tX.rows ++ [(tX.nextPk, eX)]⟩) Y
        ⟨tY.nextPk + 1, tY.rows ++ [(tY.nextPk, eY)]⟩) X
        = some ⟨tX.nextPk + 1, tX.rows ++ [(tX.nextPk, eX)]⟩ := by
      rw [alFind_write_other _ _ _ _ hXY, alFind_write_self]
    simp [rel_get_entity_by_id, get_table, h2, List.find?_append,
      find?_fresh_keys tX.rows tX.nextPk tX.nextPk hfX le_rfl, List.find?]
  · have h3 : alFind (alWrite (alWrite db.tables X
        ⟨tX.nextPk + 1, tX.rows ++ [(tX.nextPk, eX)]⟩) Y
        ⟨tY.nextPk + 1, tY.rows ++ [(tY.nextPk, eY)]⟩) Y
        = some ⟨tY.nextPk + 1, tY.rows ++ [(tY.nextPk, eY)]⟩ :=
      alFind_write_self _ _ _
    have h4 : tY.rows.find? (fun r => r.1 == tX.nextPk) = none :=
      find?_fresh_keys tY.rows tY.nextPk tX.nextPk hfY (le_of_eq hk)
    simp only [hk] at h3
    simp [rel_get_entity_by_id, get_table, h3, List.find?_append, h4, List.find?, hk]
  · have h2 : alFind (alWrite (alWrite db.tables X
        ⟨tX.nextPk + 1, tX.rows ++ [(tX.nextPk, eX)]⟩) Y
        ⟨tY.nextPk + 1, tY.rows ++ [(tY.nextPk, eY)]⟩) X
        = some ⟨tX.nextPk + 1, tX.rows ++ [(tX.nextPk, eX)]⟩ := by
      rw [alFind_write_other _ _ _ _ hXY, alFind_write_self]
    simp [rel_list_entities, get_table, h2]
  · simp [rel_list_entities, get_table, hX]
  · intro d f
    simp only [nosql_list_entities, nosql_insert_entity]
    rw [alFind_write_other d.collections Y X
      ((alFind d.collections Y).getD [] ++ [(d.nextOid, f)]) hXY]

/-- Witness for entity_backend_isolation: two empty tables users and orders,
both inserts generate key 0, and isolation holds as stated. -/
theorem entity_backend_isolation_witness :
    ∃ k db1 db2,
      rel_insert_entity ⟨[("users", ⟨0, []⟩), ("orders", ⟨0, []⟩)]⟩ "users"
          [("a", "1")] = Except.ok (k, db1) ∧
      rel_insert_entity db1 "orders" [("b", "2")] = Except.ok (k, db2) ∧
      rel_get_entity_by_id db2 "users" k = Except.ok (some [("a", "1")]) ∧
      rel_get_entity_by_id db2 "orders" k = Except.ok (some [("b", "2")]) ∧
      rel_list_entities db2 "users" = Except.ok ([] ++ [(k, [("a", "1")])]) ∧
      rel_list_entities ⟨[("users", ⟨0, []⟩), ("orders", ⟨0, []⟩)]⟩ "users"
          = Except.ok [] ∧
      (∀ (d : DocDB) (f : Fields),
        nosql_list_entities (nosql_insert_entity d "orders" f).2 "users"
          = nosql_list_entities d "users") :=
  entity_backend_isolation ⟨[("users", ⟨0, []⟩), ("orders", ⟨0, []⟩)]⟩
    "users" "orders" ⟨0, []⟩ ⟨0, []⟩ [("a", "1")] [("b", "2")]
    (by decide) (by simp [alFind]) (by simp [alFind])
    (by simp) (by simp) rfl

/-! ### The gated DB-service upload (src/DB/dbEndPoint.py) and the ungated
mutating endpoints -/

/-- Outcome of the DB-service upload handler: its event trace in program
order, its response or error, and the relational database and filesystem it
leaves behind. -/
structure DbUploadOut where
  trace : List Event
  result : Except HandlerError UploadResult
  db : RelDB
  fs : Fs
deriving Repr

/-- The entity dict built by dbEndPoint.upload_file; file_location is the
bare file.filename (no uploads directory on this service). -/
def fileEntity (filename bucket user_id : String) : Fields :=
  [("path", filename), ("filename", filename), ("bucket", bucket),
    ("user_id", user_id)]

/-- upload_file of src/DB/dbEndPoint.py: signature check, then
check_resource_limits (raising 503/507 on rejection, before anything is
written), then the file write to file.filename, then insert_entity into the
named table.  A missing table makes insert_entity raise an uncaught
RuntimeError after the file bytes were already written. -/
def db_upload_file (table_name user_id bucket filename : String) (content : Bytes)
    (x_signature : String) (limits : ResourceLimits) (p : Pressure)
    (db : RelDB) (fs : Fs) : DbUploadOut :=
  if x_signature = VALID_SIGNATURE then
    match check_resource_limits limits p with
    | some r =>
        { trace := [Event.authCheck, Event.admissionCheck]
          result := Except.error
            (HandlerError.httpExc r.status (rejectionDetail r.dimension))
          db := db, fs := fs }
    | none =>
        match rel_insert_entity db table_name (fileEntity filename bucket user_id) with
        | Except.error msg =>
            { trace := [Event.authCheck, Event.admissionCheck,
                Event.fileWrite filename content]
              result := Except.error (HandlerError.runtimeError msg)
              db := db, fs := alWrite fs filename content }
        | Except.ok (pk, db1) =>
            { trace := [Event.authCheck, Event.admissionCheck,
                Event.fileWrite filename content, Event.rowInsert]
              result := Except.ok ⟨pk, filename⟩
              db := db1, fs := alWrite fs filename content }
  else
    { trace := [Event.authCheck]
      result := Except.error (HandlerError.httpExc 401 "Invalid signature key")
      db := db, fs := fs }

/-- queue_add of src/Queue/QueueEndpoints.py via add_message: the enqueue
runs with no signature check and no admission check. -/
def queue_add (message_text : String) (q : QState) :
    List Event × (Msg × QState) :=
  ([Event.queueAppend], add_message message_text q)

/-- save_entity of src/Buckets/buckets.py (the document-entity insert
endpoint): the insert runs with no admission check. -/
def nosql_save_entity (collection_name : String) (entity : Fields) (d : DocDB) :
    List Event × (Nat × DocDB) :=
  ([Event.rowInsert], nosql_insert_entity d collection_name entity)

/-- Events that mutate a store. -/
def Event.isWrite : Event → Bool
  | Event.fileWrite _ _ => true
  | Event.rowInsert => true
  | Event.queueAppend => true
  | _ => false

/-- C1 (amended): only the DB-service upload is admission-gated.  There, the
admission check runs after auth and before any write, and whenever it
rejects, no file bytes are written and no metadata row is inserted (database
and filesystem unchanged); when it admits, every later trace event is a
write.  The blob-service upload, the document-entity insert and the queue
enqueue perform their writes with no admission check at all. -/
theorem admission_gate_db_upload_only (table_name user_id bucket filename : String)
    (content : Bytes) (limits : ResourceLimits) (p : Pressure)
    (db : RelDB) (fs : Fs) :
    (∀ r, check_resource_limits limits p = some r →
      (db_upload_file table_name user_id bucket filename content VALID_SIGNATURE
          limits p db fs).trace = [Event.authCheck, Event.admissionCheck] ∧
      (db_upload_file table_name user_id bucket filename content VALID_SIGNATURE
          limits p db fs).result
        = Except.error (HandlerError.httpExc r.status (rejectionDetail r.dimension)) ∧
      (db_upload_file table_name user_id bucket filename content VALID_SIGNATURE
          limits p db fs).db = db ∧
      (db_upload_file table_name user_id bucket filename content VALID_SIGNATURE
          limits p db fs).fs = fs) ∧
    (check_resource_limits limits p = none →
      ∃ writes,
        (db_upload_file table_name user_id bucket filename content VALID_SIGNATURE
            limits p db fs).trace
          = [Event.authCheck, Event.admissionCheck] ++ writes ∧
        ∀ ev ∈ writes, ev.isWrite = true) ∧
    (∀ s : BlobState,
      Event.admissionCheck ∉
        (buckets_upload_file user_id bucket filename content VALID_SIGNATURE s).trace) ∧
    (∀ (q : QState) (text : String),
      Event.admissionCheck ∉ (queue_add text q).1) ∧
    (∀ (d : DocDB) (e : Fields),
      Event.admissionCheck ∉ (nosql_save_entity table_name e d).1) := by
  refine ⟨?_, ?_, ?_, ?_, ?_⟩
  · intro r h
    refine ⟨?_, ?_, ?_, ?_⟩ <;> simp [db_upload_file, h]
  · intro h
    rcases hins : rel_insert_entity db table_name (fileEntity filename bucket user_id)
      with msg | ⟨pk, db1⟩
    · exact ⟨[Event.fileWrite filename content],
        by simp [db_upload_file, h, hins], by simp [Event.isWrite]⟩
    · exact ⟨[Event.fileWrite filename content, Event.rowInsert],
        by simp [db_upload_file, h, hins], by simp [Event.isWrite]⟩
  · intro s
    simp [buckets_upload_file]
  · intro q text
    simp [queue_add]
  · intro d e
    simp [nosql_save_entity]

/-- Witness for admission_gate_db_upload_only: a CPU-overload sample makes the
DB-service upload stop at [authCheck, admissionCheck] with no write events
and no state change. -/
theorem admission_gate_db_upload_only_witness :
    (db_upload_file "files" "u" "b" "f.txt" [104] VALID_SIGNATURE
        DEFAULT_RESOURCE_LIMITS ⟨95, 0, 1000⟩ ⟨[]⟩ []).trace
      = [Event.authCheck, Event.admissionCheck] :=
  ((admission_gate_db_upload_only "files" "u" "b" "f.txt" [104]
      DEFAULT_RESOURCE_LIMITS ⟨95, 0, 1000⟩ ⟨[]⟩ []).1 ⟨503, Dimension.cpu⟩
      (by norm_num [check_resource_limits, DEFAULT_RESOURCE_LIMITS])).1

/-- C1 counterexample: under a pressure sample the admission check rejects
(CPU over limit), the blob-service upload of src/Buckets/buckets.py still
writes the file bytes and inserts the metadata row — its trace holds write
events and no admission check — and the queue enqueue likewise appends with
no admission check.  So not every mutating operation is gated, refuting the
claim as stated. -/
theorem admission_ungated_writes_cex :
    check_resource_limits DEFAULT_RESOURCE_LIMITS ⟨95, 0, 1000⟩
        = some ⟨503, Dimension.cpu⟩ ∧
    (buckets_upload_file "alice" "reports" "f.txt" [104] VALID_SIGNATURE
        ⟨0, [], []⟩).trace
      = [Event.authCheck, Event.fileWrite "uploads/f.txt" [104], Event.rowInsert] ∧
    (queue_add "ping" qInit).1 = [Event.queueAppend] := by
  refine ⟨by norm_num [check_resource_limits, DEFAULT_RESOURCE_LIMITS], ?_, rfl⟩
  simp [buckets_upload_file, uploadPath]

/-- C8 counterexample: with no tables at all and an admitted pressure sample,
the DB-service upload into table users fails with the schema RuntimeError,
which is not an HTTPException and is surfaced by the framework as a 500
Internal Server Error — not as a 400 bad-backend response, refuting the
surfaced-as-400 part of the claim as stated. -/
theorem entity_insert_surfaced_500_cex :
    (db_upload_file "users" "u" "b" "f.txt" [104] VALID_SIGNATURE
        DEFAULT_RESOURCE_LIMITS ⟨0, 0, 1000⟩ ⟨[]⟩ []).result
      = Except.error (HandlerError.runtimeError (relMissingMsg "users")) ∧
    (HandlerError.runtimeError (relMissingMsg "users")).status = 500 ∧
    ¬ (HandlerError.runtimeError (relMissingMsg "users")).status = 400 := by
  have hchk : check_resource_limits DEFAULT_RESOURCE_LIMITS ⟨0, 0, 1000⟩ = none := by
    norm_num [check_resource_limits, DEFAULT_RESOURCE_LIMITS]
  refine ⟨?_, rfl, by norm_num [HandlerError.status]⟩
  simp [db_upload_file, hchk, rel_insert_entity, get_table, alFind]

end UWS
